import Mathlib

/-!
Shallow embedding of the billing-reconciliation and insurance-coverage
workflow of the apap-medika backend.

Money amounts (Python `Decimal` columns) are modelled as `Int`; dates as
`Int` day numbers (only the order `expiry_date < today` is ever consulted);
statuses keep the integer / string encodings of the source.  Each Lean
definition is translated from the named Python function:

* `Bill.calculate_subtotal`, `Bill.calculate_coverage_discount`,
  `Bill.update_status`, `Bill.apply_policy_coverage`, `Bill.pay`
  — bill/models.py
* `Policy.update_status` — insurance/models.py
* `payBill` (status check of `PayBillSerializer.validate_bill_id`
  followed by `Bill.pay` in `create`) — bill/serializers.py
* `validate_policy`, `updateBillWithPolicy`
  (`UpdateBillSerializer.validate_policy` / `.update`) — bill/serializers.py
* `processPrescription`, `restockLine`
  (`ProcessPrescriptionSerializer.update`,
  `MedicineRestockSerializer.create`) — pharmacy/serializers.py
* `validateCreatePolicy` (`CreatePolicySerializer.validate`,
  policy-ownership / insurance-limit checks) — insurance/serializers.py

Django ORM state that a method touches is carried inline: a `Bill` value
holds its linked appointment, prescription, reservation, policy (with the
policy's `policycoverage_set`) and its `covered_treatments` rows, so a
method mutating `self.policy` or creating `BillCoveredTreatment` rows is a
function `Bill → Bill`.
-/

/-- appointment/models.py `Treatment` (catalog row: name, price).  The
`AppointmentTreatment` join row contributes exactly its treatment's name
and price, which is all the billing code reads. -/
structure Treatment where
  name : String
  price : Int
deriving DecidableEq

/-- appointment/models.py `Appointment`: status (1 = Done), `total_fee`,
and the `appointmenttreatment_set` in iteration order. -/
structure Appointment where
  status : Int
  total_fee : Int
  treatments : List Treatment
deriving DecidableEq

/-- pharmacy/models.py `Prescription`: status (2 = Done) and `total_price`. -/
structure Prescription where
  status : Int
  total_price : Int
deriving DecidableEq

/-- hospitalization/models.py `Reservation`: only `total_fee` is read by
the billing code. -/
structure Reservation where
  total_fee : Int
deriving DecidableEq

/-- insurance/models.py `Coverage` (catalog row: name, coverage_amount). -/
structure Coverage where
  name : String
  coverage_amount : Int
deriving DecidableEq

/-- insurance/models.py `PolicyCoverage`: join of a policy to a `Coverage`
with a `used` flag.  The source class declares the attributes
`id`, `policy`, `coverage`, `used` (plus the implicit `policy_id`,
`coverage_id` foreign-key columns) and nothing else; in particular it has
no attribute named `coverage_amount` — that lives on the linked
`Coverage`.  `policyCoverageAttrNames` records the declared attribute
names for modelling Python attribute lookup. -/
structure PolicyCoverage where
  coverage : Coverage
  used : Bool
deriving DecidableEq

def policyCoverageAttrNames : List String :=
  ["id", "policy", "policy_id", "coverage", "coverage_id", "used"]

/-- insurance/models.py `Policy`.  `patient` is an opaque identifier,
`status` keeps the integer encoding 0 Created, 1 PartiallyClaimed,
2 FullyClaimed, 3 Expired, 4 Cancelled.  `coverages` is the
`policycoverage_set` in iteration order. -/
structure Policy where
  patient : Nat
  status : Int
  expiry_date : Int
  total_coverage : Int
  total_covered : Int
  coverages : List PolicyCoverage
deriving DecidableEq

/-- insurance/models.py `Policy.update_status`: the status cascade run
against `date.today()` (passed here as `today`). -/
def Policy.update_status (today : Int) (p : Policy) : Policy :=
  if p.expiry_date < today ∧ p.status ≠ 2 ∧ p.status ≠ 4 then
    { p with status := 3 }
  else if p.total_covered ≥ p.total_coverage ∧ p.status ≠ 4 then
    { p with status := 2 }
  else if p.total_covered > 0 ∧ p.status ≠ 2 ∧ p.status ≠ 3 ∧ p.status ≠ 4 then
    { p with status := 1 }
  else
    p

inductive BillStatus where
  | treatmentInProgress
  | unpaid
  | paid
deriving DecidableEq

/-- bill/models.py `BillCoveredTreatment` row. -/
structure BillCoveredTreatment where
  treatment_name : String
  treatment_price : Int
  coverage_amount : Int
deriving DecidableEq

/-- bill/models.py `Bill` with its linked rows inlined. -/
structure Bill where
  patient : Nat
  appointment : Option Appointment
  prescription : Option Prescription
  reservation : Option Reservation
  policy : Option Policy
  appointment_total_fee : Int
  prescription_total_price : Int
  reservation_total_fee : Int
  subtotal : Int
  total_amount_due : Int
  status : BillStatus
  covered_treatments : List BillCoveredTreatment
deriving DecidableEq

/-- The query
`policycoverage_set.filter(coverage__name=treatment_name, used=False).first()`:
first element whose coverage name equals `n` and whose `used` flag is
still false. -/
def findFirstUnused (lines : List PolicyCoverage) (n : String) :
    Option PolicyCoverage :=
  lines.find? (fun pc => pc.coverage.name == n && pc.used == false)

/-- bill/models.py `Bill.calculate_subtotal`. -/
def Bill.calculate_subtotal (b : Bill) : Int :=
  b.appointment_total_fee + b.prescription_total_price + b.reservation_total_fee

/-- bill/models.py `Bill.calculate_coverage_discount`: the
`total_discount` accumulation loop over the appointment's treatment
lines.  The `used` flags are only read, never written, during this
computation. -/
def Bill.calculate_coverage_discount (b : Bill) : Int :=
  match b.policy, b.appointment with
  | some p, some a =>
      a.treatments.foldl (fun acc t =>
        match findFirstUnused p.coverages t.name with
        | some pc => acc + min t.price pc.coverage.coverage_amount
        | none => acc) 0
  | _, _ => 0

/-- bill/models.py `Bill.update_status`.  Note the source order: the new
`subtotal` is assigned from the *current* (cached) fee fields first, and
only afterwards are the three fee fields refreshed from the linked
records. -/
def Bill.update_status (b : Bill) : Bill :=
  let appointment_done := match b.appointment with
    | none => true
    | some a => a.status == 1
  let prescription_done := match b.prescription with
    | none => true
    | some pr => pr.status == 2
  let reservation_done := true
  if appointment_done && prescription_done && reservation_done then
    if b.status == BillStatus.treatmentInProgress then
      let subtotal := b.calculate_subtotal
      let atf := match b.appointment with
        | some a => a.total_fee
        | none => b.appointment_total_fee
      let ptp := match b.prescription with
        | some pr => pr.total_price
        | none => b.prescription_total_price
      let rtf := match b.reservation with
        | some r => r.total_fee
        | none => b.reservation_total_fee
      { b with status := BillStatus.unpaid, subtotal := subtotal,
               appointment_total_fee := atf,
               prescription_total_price := ptp,
               reservation_total_fee := rtf,
               total_amount_due := subtotal }
    else b
  else b

/-- bill/models.py `Bill.apply_policy_coverage`. -/
def Bill.apply_policy_coverage (b : Bill) : Bill :=
  if b.policy.isSome && b.status == BillStatus.unpaid then
    { b with total_amount_due := b.subtotal - b.calculate_coverage_discount }
  else b

/-- Flip the `used` flag of the first unused line named `n`
(`policy_coverage.used = True; policy_coverage.save()` acting on the row
returned by the `filter(...).first()` query). -/
def markFirstUnused : List PolicyCoverage → String → List PolicyCoverage
  | [], _ => []
  | pc :: rest, n =>
      if pc.coverage.name == n && pc.used == false then
        { pc with used := true } :: rest
      else
        pc :: markFirstUnused rest n

/-- The coverage-consumption loop inside bill/models.py `Bill.pay`: for
each treatment line, re-query the first unused name-matching coverage
line against the *current* flags, flip it, and append a
`BillCoveredTreatment` row with `min(price, coverage.coverage_amount)`. -/
def payLoop : List Treatment → List PolicyCoverage →
    List BillCoveredTreatment → List PolicyCoverage × List BillCoveredTreatment
  | [], lines, rows => (lines, rows)
  | t :: ts, lines, rows =>
      match findFirstUnused lines t.name with
      | some pc =>
          payLoop ts (markFirstUnused lines t.name)
            (rows ++ [{ treatment_name := t.name, treatment_price := t.price,
                        coverage_amount := min t.price pc.coverage.coverage_amount }])
      | none => payLoop ts lines rows

/-- bill/models.py `Bill.pay`.  `today` is `date.today()` as consulted by
the nested `Policy.update_status` call. -/
def Bill.pay (today : Int) (b : Bill) : Bill :=
  if b.status == BillStatus.unpaid then
    match b.policy, b.appointment with
    | some p, some a =>
        let covered_amount := b.calculate_coverage_discount
        let p1 : Policy := { p with total_covered := p.total_covered + covered_amount }
        let p2 : Policy := if p1.status == 0 then { p1 with status := 1 } else p1
        let p3 : Policy := Policy.update_status today p2
        let res := payLoop a.treatments p3.coverages []
        { b with status := BillStatus.paid,
                 policy := some { p3 with coverages := res.1 },
                 covered_treatments := b.covered_treatments ++ res.2 }
    | _, _ => { b with status := BillStatus.paid }
  else b

/-- bill/serializers.py `PayBillSerializer`: `validate_bill_id` rejects a
bill whose status is not `UNPAID`; on success `create` runs `bill.pay()`. -/
def payBill (today : Int) (b : Bill) : Except String Bill :=
  if b.status == BillStatus.unpaid then
    Except.ok (Bill.pay today b)
  else
    Except.error "Bill is not in unpaid status."

/-- bill/serializers.py `UpdateBillSerializer.validate_policy`: the policy
must belong to the bill's patient, be active (status Created or
PartiallyClaimed), and — when the bill has an appointment — have at least
one unused coverage line whose name matches one of the appointment's
treatments. -/
def validate_policy (b : Bill) (p : Policy) : Bool :=
  p.patient == b.patient &&
  (p.status == 0 || p.status == 1) &&
  (match b.appointment with
   | some a => a.treatments.any (fun t => (findFirstUnused p.coverages t.name).isSome)
   | none => true)

/-- The row-creation loop at the end of bill/serializers.py
`UpdateBillSerializer.update`.  For each treatment line with an unused
name-matching coverage line the source evaluates
`policy_coverage.coverage_amount`; `coverage_amount` is not among the
attributes declared by the `PolicyCoverage` model
(`policyCoverageAttrNames`), so Python raises `AttributeError` there.
The error value carries the bill state reached when the exception fires;
the (unreachable) has-attribute branch mirrors the row the source tries
to build. -/
def updateLoop (b : Bill) (lines : List PolicyCoverage) :
    List Treatment → Except (String × Bill) Bill
  | [] => Except.ok b
  | t :: ts =>
      match findFirstUnused lines t.name with
      | some pc =>
          if policyCoverageAttrNames.contains "coverage_amount" then
            updateLoop
              { b with covered_treatments := b.covered_treatments ++
                  [{ treatment_name := t.name, treatment_price := t.price,
                     coverage_amount := min t.price pc.coverage.coverage_amount }] }
              lines ts
          else
            Except.error ("AttributeError: coverage_amount", b)
      | none => updateLoop b lines ts

/-- bill/serializers.py `UpdateBillSerializer.update` (post-validation):
save the policy onto the bill, run `update_status`, and — when a policy
and an appointment are present — delete the existing
`covered_treatments` rows and rebuild them (the rebuild loop raises, see
`updateLoop`). -/
def updateBillWithPolicy (b : Bill) (p : Policy) : Except (String × Bill) Bill :=
  let b1 : Bill := { b with policy := some p }
  let b2 := b1.update_status
  match b2.policy, b2.appointment with
  | some q, some a =>
      updateLoop { b2 with covered_treatments := [] } q.coverages a.treatments
  | _, _ => Except.ok b2

/-- pharmacy/serializers.py: one `MedicineQuantity` line together with its
medicine's stock (within one prescription the medicines of distinct lines
are distinct, so each line carries its own stock). -/
structure MedicineLine where
  quantity : Int
  fulfilled_quantity : Int
  stock : Int
deriving DecidableEq

/-- pharmacy/models.py `MedicineQuantity.remaining_quantity`. -/
def MedicineLine.remaining_quantity (l : MedicineLine) : Int :=
  l.quantity - l.fulfilled_quantity

/-- One iteration of the fulfillment loop in
`ProcessPrescriptionSerializer.update`: returns the updated line and the
contribution to `all_fulfilled`. -/
def processLine (l : MedicineLine) : MedicineLine × Bool :=
  if l.stock ≥ l.remaining_quantity then
    ({ l with stock := l.stock - l.remaining_quantity,
              fulfilled_quantity := l.fulfilled_quantity + l.remaining_quantity },
     true)
  else
    ({ l with fulfilled_quantity := l.fulfilled_quantity + l.stock, stock := 0 },
     false)

/-- pharmacy/serializers.py `ProcessPrescriptionSerializer.update`: run
the fulfillment loop over every line, then set the prescription status to
2 (Done) when `all_fulfilled`, else 1 (WaitingForStock). -/
def processPrescription (lines : List MedicineLine) :
    List MedicineLine × Int :=
  let step := lines.foldl
    (fun (st : List MedicineLine × Bool) l =>
      (st.1 ++ [(processLine l).1], st.2 && (processLine l).2))
    ([], true)
  (step.1, if step.2 then 2 else 1)

/-- pharmacy/serializers.py `MedicineRestockSerializer.create` acting on
one medicine: `medicine.stock += quantity`. -/
def restockLine (l : MedicineLine) (q : Int) : MedicineLine :=
  { l with stock := l.stock + q }

/-- insurance/serializers.py: the slice of an existing policy row read by
`CreatePolicySerializer.validate` (company identity, status,
total_coverage). -/
structure PolicyRef where
  company : Nat
  status : Int
  total_coverage : Int
deriving DecidableEq

/-- The class-based limit table `insurance_limits = {1: 100000000,
2: 50000000, 3: 25000000}` with `.get(p_class, 0)`. -/
def insuranceLimit (pclass : Int) : Int :=
  if pclass = 1 then 100000000
  else if pclass = 2 then 50000000
  else if pclass = 3 then 25000000
  else 0

/-- The `used_coverage` aggregate of `CreatePolicySerializer.validate`:
sum of `total_coverage` over the patient's policies with
`status__in=[0, 1, 2]`. -/
def usedCoverage (ps : List PolicyRef) : Int :=
  (ps.filter (fun r => r.status == 0 || r.status == 1 || r.status == 2)).foldl
    (fun acc r => acc + r.total_coverage) 0

/-- The names bound at the top level of insurance/serializers.py by its
four import lines (`from rest_framework import serializers`, `from
django.utils import timezone`, `from .models import Coverage, Company,
CompanyCoverage, Policy, PolicyCoverage` and `from profiles.models import
Patient, EndUser`).  The bare name `models` is not among them, so
evaluating `models.Sum('total_coverage')` inside
`CreatePolicySerializer.validate` raises `NameError`. -/
def insuranceSerializersTopLevelNames : List String :=
  ["serializers", "timezone", "Coverage", "Company", "CompanyCoverage",
   "Policy", "PolicyCoverage", "Patient", "EndUser"]

/-- insurance/serializers.py `CreatePolicySerializer.validate`, the two
checks guarded by `if 'patient' in attrs and company:` (both are skipped
when the request creates a brand-new patient inline, in which case
`attrs` has no `patient` key): reject when the patient already has an
active policy with this company; otherwise compute
`used_coverage = Policy.objects.filter(...).aggregate(total=
models.Sum('total_coverage'))['total'] or 0`.  `models` is not a bound
name in the module (`insuranceSerializersTopLevelNames`), so this
expression raises `NameError` before the limit comparison; the
(unreachable) bound branch carries the comparison the source spells
out. -/
def validateCreatePolicy (hasExistingPatient : Bool) (pclass : Int)
    (policies : List PolicyRef) (companyId : Nat) (companyTotal : Int) :
    Except String Unit :=
  if hasExistingPatient then
    if policies.any (fun r =>
        r.company == companyId && (r.status == 0 || r.status == 1 || r.status == 2)) then
      Except.error "Patient already has an active policy with this company."
    else if insuranceSerializersTopLevelNames.contains "models" then
      if companyTotal > insuranceLimit pclass - usedCoverage policies then
        Except.error "Company total coverage exceeds patient available limit."
      else
        Except.ok ()
    else
      Except.error "NameError: name 'models' is not defined"
  else
    Except.ok ()

/-- Spec-side restatement of one treatment line's discount contribution
(spec §4.2): the first unused coverage line whose name equals the
treatment's name contributes `min(price, coverage_amount)`; a line with
no unused name-match contributes zero. -/
def coverageContribution (lines : List PolicyCoverage) (t : Treatment) : Int :=
  match findFirstUnused lines t.name with
  | some pc => min t.price pc.coverage.coverage_amount
  | none => 0

/-- Spec-side measure: the sum of `coverage_amount` over the not-yet-used
coverage lines of a policy. -/
def sumUnused : List PolicyCoverage → Int
  | [] => 0
  | pc :: rest =>
      (if pc.used then 0 else pc.coverage.coverage_amount) + sumUnused rest

/-- Spec §8 scenario data: appointment with treatment lines
X-ray (Rp150,000) and CT Scan (Rp1,000,000), already Done,
`total_fee` 1,150,000. -/
def scenarioAppointment : Appointment :=
  { status := 1, total_fee := 1150000,
    treatments := [{ name := "X-ray", price := 150000 },
                   { name := "CT Scan", price := 1000000 }] }

/-- Spec §8 scenario data: policy covering X-ray for Rp150,000, unused. -/
def scenarioPolicy : Policy :=
  { patient := 0, status := 0, expiry_date := 1000, total_coverage := 150000,
    total_covered := 0, coverages := [{ coverage := ⟨"X-ray", 150000⟩, used := false }] }

/-- Spec §8 scenario data: the Unpaid bill for `scenarioAppointment` with
`scenarioPolicy` attached, `subtotal = total_amount_due = 1,150,000`. -/
def scenarioBill : Bill :=
  { patient := 0, appointment := some scenarioAppointment, prescription := none,
    reservation := none, policy := some scenarioPolicy,
    appointment_total_fee := 1150000, prescription_total_price := 0,
    reservation_total_fee := 0, subtotal := 1150000, total_amount_due := 1150000,
    status := BillStatus.unpaid, covered_treatments := [] }

/-- An appointment holding two distinct treatment lines that share the
name X-ray (two distinct `Treatment` catalog rows may share a name:
`Treatment.name` carries no unique constraint, and `AppointmentTreatment`
is only unique per (appointment, treatment)). -/
def dupXrayAppointment : Appointment :=
  { status := 1, total_fee := 300000,
    treatments := [{ name := "X-ray", price := 150000 },
                   { name := "X-ray", price := 150000 }] }

/-- Unpaid bill over `dupXrayAppointment` with `scenarioPolicy` attached. -/
def dupXrayBill : Bill :=
  { patient := 0, appointment := some dupXrayAppointment, prescription := none,
    reservation := none, policy := some scenarioPolicy,
    appointment_total_fee := 300000, prescription_total_price := 0,
    reservation_total_fee := 0, subtotal := 300000, total_amount_due := 300000,
    status := BillStatus.unpaid, covered_treatments := [] }

/-- A bill still in TreatmentInProgress whose cached
`appointment_total_fee` (0) lags behind the linked appointment's live
`total_fee` (100); the appointment is Done. -/
def staleBill : Bill :=
  { patient := 0, appointment := some { status := 1, total_fee := 100, treatments := [] },
    prescription := none, reservation := none, policy := none,
    appointment_total_fee := 0, prescription_total_price := 0,
    reservation_total_fee := 0, subtotal := 0, total_amount_due := 0,
    status := BillStatus.treatmentInProgress, covered_treatments := [] }

/-- Unpaid bill (no policy yet) over `scenarioAppointment`, carrying one
pre-existing `BillCoveredTreatment` row, used to exercise
`updateBillWithPolicy`. -/
def attachBill : Bill :=
  { patient := 0, appointment := some scenarioAppointment, prescription := none,
    reservation := none, policy := none,
    appointment_total_fee := 1150000, prescription_total_price := 0,
    reservation_total_fee := 0, subtotal := 1150000, total_amount_due := 1150000,
    status := BillStatus.unpaid,
    covered_treatments := [{ treatment_name := "stale", treatment_price := 1,
                             coverage_amount := 1 }] }

/-- `scenarioBill` after payment (used to instantiate post-payment
invariance). -/
def paidScenarioBill : Bill := { scenarioBill with status := BillStatus.paid }

lemma pay_total_amount_due (today : Int) (b : Bill) :
    (Bill.pay today b).total_amount_due = b.total_amount_due := by
  unfold Bill.pay
  split
  · split <;> rfl
  · rfl

lemma pay_of_not_unpaid (today : Int) (b : Bill)
    (h : b.status ≠ BillStatus.unpaid) : Bill.pay today b = b := by
  simp [Bill.pay, h]

lemma pay_status_paid (today : Int) (b : Bill)
    (h : b.status = BillStatus.unpaid) :
    (Bill.pay today b).status = BillStatus.paid := by
  unfold Bill.pay
  rw [h]
  have hc : (BillStatus.unpaid == BillStatus.unpaid) = true := rfl
  rw [if_pos hc]
  split <;> rfl

lemma update_status_of_not_tip (b : Bill)
    (h : b.status ≠ BillStatus.treatmentInProgress) :
    Bill.update_status b = b := by
  unfold Bill.update_status
  have hb : (b.status == BillStatus.treatmentInProgress) = false := by
    simpa using h
  simp [hb]

lemma apply_policy_coverage_of_not_unpaid (b : Bill)
    (h : b.status ≠ BillStatus.unpaid) :
    Bill.apply_policy_coverage b = b := by
  simp [Bill.apply_policy_coverage, h]

/-- Claim C2 — evaluation at the failing input: `update_status` on a
TreatmentInProgress bill whose cached `appointment_total_fee` (0) lags
the live `Appointment.total_fee` (100) transitions to Unpaid, refreshes
the component fields to the live values, but has already computed
`subtotal` (and `total_amount_due`) from the cached values: afterwards
`subtotal = 0` while the components sum to 100, so
`subtotal ≠ appointment_total_fee + prescription_total_price +
reservation_total_fee` immediately after the call, contradicting the
claim. -/
theorem C2_update_status_subtotal_stale :
    (Bill.update_status staleBill).status = BillStatus.unpaid ∧
    (Bill.update_status staleBill).appointment_total_fee +
      (Bill.update_status staleBill).prescription_total_price +
      (Bill.update_status staleBill).reservation_total_fee = 100 ∧
    (Bill.update_status staleBill).subtotal = 0 ∧
    (Bill.update_status staleBill).total_amount_due = 0 ∧
    (Bill.update_status staleBill).subtotal ≠
      (Bill.update_status staleBill).calculate_subtotal := by
  decide

/-- Claim C4 — `pay` is only legal from Unpaid: the serializer path
rejects any non-Unpaid bill with an invalid-state error (producing no new
state), and after a successful payment a second call is rejected while a
forced second `Bill.pay` would change nothing, so coverage is never
consumed twice. -/
theorem C4_pay_only_from_unpaid :
    ∀ (today : Int) (b : Bill),
      (b.status ≠ BillStatus.unpaid →
        payBill today b = Except.error "Bill is not in unpaid status.") ∧
      (b.status = BillStatus.unpaid →
        payBill today b = Except.ok (Bill.pay today b) ∧
        (Bill.pay today b).status = BillStatus.paid ∧
        payBill today (Bill.pay today b) =
          Except.error "Bill is not in unpaid status." ∧
        Bill.pay today (Bill.pay today b) = Bill.pay today b) := by
  intro today b
  constructor
  · intro h
    simp [payBill, h]
  · intro h
    have hpaid := pay_status_paid today b h
    refine ⟨by simp [payBill, h], hpaid, by simp [payBill, hpaid], ?_⟩
    exact pay_of_not_unpaid today _ (by rw [hpaid]; decide)

/-- Witness for C4 at a concrete Paid bill. -/
theorem C4_pay_only_from_unpaid_witness :
    payBill 0 paidScenarioBill = Except.error "Bill is not in unpaid status." :=
  (C4_pay_only_from_unpaid 0 paidScenarioBill).1 (by decide)

/-- Claim C6 — `apply_policy_coverage` on an Unpaid bill with a policy
attached sets `total_amount_due = subtotal − coverage_discount` with the
discount recomputed on the spot, leaves the policy (its `used` flags and
`total_covered`) and the subtotal untouched, and is idempotent. -/
theorem C6_apply_policy_coverage_idempotent :
    ∀ (b : Bill) (p : Policy), b.policy = some p →
      b.status = BillStatus.unpaid →
      Bill.apply_policy_coverage b =
        { b with total_amount_due := b.subtotal - b.calculate_coverage_discount } ∧
      (Bill.apply_policy_coverage b).policy = b.policy ∧
      (Bill.apply_policy_coverage b).subtotal = b.subtotal ∧
      (Bill.apply_policy_coverage b).status = b.status ∧
      Bill.apply_policy_coverage (Bill.apply_policy_coverage b) =
        Bill.apply_policy_coverage b := by
  intro b p hp hs
  have hcond : (b.policy.isSome && b.status == BillStatus.unpaid) = true := by
    rw [hp, hs]; rfl
  have h1 : Bill.apply_policy_coverage b =
      { b with total_amount_due := b.subtotal - b.calculate_coverage_discount } := by
    unfold Bill.apply_policy_coverage
    rw [if_pos hcond]
  refine ⟨h1, by rw [h1], by rw [h1], by rw [h1], ?_⟩
  rw [h1]
  unfold Bill.apply_policy_coverage
  rw [if_pos (show _ = true from hcond)]
  rfl

/-- Witness for C6: idempotence at the spec scenario bill. -/
theorem C6_apply_policy_coverage_witness :
    Bill.apply_policy_coverage (Bill.apply_policy_coverage scenarioBill) =
      Bill.apply_policy_coverage scenarioBill :=
  (C6_apply_policy_coverage_idempotent scenarioBill scenarioPolicy rfl rfl).2.2.2.2

/-- Claim C7 — `Policy.update_status` changes only the status field, and
derives it by the exact precedence of the spec: Expired when past expiry
and not FullyClaimed/Cancelled; else FullyClaimed when
`total_covered ≥ total_coverage` and not Cancelled; else PartiallyClaimed
when `total_covered > 0` and not FullyClaimed/Expired/Cancelled; else the
policy is left unchanged. -/
theorem C7_policy_update_status_cascade :
    ∀ (today : Int) (p : Policy),
      ((Policy.update_status today p).patient = p.patient ∧
       (Policy.update_status today p).expiry_date = p.expiry_date ∧
       (Policy.update_status today p).total_coverage = p.total_coverage ∧
       (Policy.update_status today p).total_covered = p.total_covered ∧
       (Policy.update_status today p).coverages = p.coverages) ∧
      (p.expiry_date < today ∧ p.status ≠ 2 ∧ p.status ≠ 4 →
        (Policy.update_status today p).status = 3) ∧
      (¬(p.expiry_date < today ∧ p.status ≠ 2 ∧ p.status ≠ 4) →
        p.total_covered ≥ p.total_coverage ∧ p.status ≠ 4 →
        (Policy.update_status today p).status = 2) ∧
      (¬(p.expiry_date < today ∧ p.status ≠ 2 ∧ p.status ≠ 4) →
        ¬(p.total_covered ≥ p.total_coverage ∧ p.status ≠ 4) →
        p.total_covered > 0 ∧ p.status ≠ 2 ∧ p.status ≠ 3 ∧ p.status ≠ 4 →
        (Policy.update_status today p).status = 1) ∧
      (¬(p.expiry_date < today ∧ p.status ≠ 2 ∧ p.status ≠ 4) →
        ¬(p.total_covered ≥ p.total_coverage ∧ p.status ≠ 4) →
        ¬(p.total_covered > 0 ∧ p.status ≠ 2 ∧ p.status ≠ 3 ∧ p.status ≠ 4) →
        Policy.update_status today p = p) := by
  intro today p
  unfold Policy.update_status
  refine ⟨by split_ifs <;> exact ⟨rfl, rfl, rfl, rfl, rfl⟩,
          fun h1 => by rw [if_pos h1],
          fun h1 h2 => by rw [if_neg h1, if_pos h2],
          fun h1 h2 h3 => by rw [if_neg h1, if_neg h2, if_pos h3],
          fun h1 h2 h3 => by rw [if_neg h1, if_neg h2, if_neg h3]⟩

/-- Witness for C7: the scenario policy seen past its expiry date turns
Expired. -/
theorem C7_policy_update_status_witness :
    (Policy.update_status 2000 scenarioPolicy).status = 3 :=
  (C7_policy_update_status_cascade 2000 scenarioPolicy).2.1 (by decide)

lemma discount_foldl_eq (lines : List PolicyCoverage) :
    ∀ (ts : List Treatment) (acc : Int),
      ts.foldl (fun acc t =>
        match findFirstUnused lines t.name with
        | some pc => acc + min t.price pc.coverage.coverage_amount
        | none => acc) acc
      = acc + (ts.map (coverageContribution lines)).sum := by
  intro ts
  induction ts with
  | nil => intro acc; simp
  | cons t ts ih =>
      intro acc
      rw [List.foldl_cons, ih, List.map_cons, List.sum_cons]
      unfold coverageContribution
      cases findFirstUnused lines t.name <;> simp <;> ring

lemma calc_discount_mapsum (b : Bill) (p : Policy) (a : Appointment)
    (hp : b.policy = some p) (ha : b.appointment = some a) :
    b.calculate_coverage_discount =
      (a.treatments.map (coverageContribution p.coverages)).sum := by
  have h : b.calculate_coverage_discount =
      a.treatments.foldl (fun acc t =>
        match findFirstUnused p.coverages t.name with
        | some pc => acc + min t.price pc.coverage.coverage_amount
        | none => acc) 0 := by
    unfold Bill.calculate_coverage_discount
    rw [hp, ha]
  rw [h, discount_foldl_eq p.coverages a.treatments 0]
  ring

/-- Claim C5 — the coverage discount of a bill with policy and
appointment attached is the sum, over the appointment's treatment lines,
of `min(price, coverage_amount)` taken from the first unused coverage
line whose name matches the treatment's name, a line without such a match
contributing zero (`coverageContribution`). -/
theorem C5_coverage_discount_sum :
    ∀ (b : Bill) (p : Policy) (a : Appointment),
      b.policy = some p → b.appointment = some a →
      b.calculate_coverage_discount =
        (a.treatments.map (coverageContribution p.coverages)).sum := by
  intro b p a hp ha
  exact calc_discount_mapsum b p a hp ha

/-- Witness for C5 at the spec scenario bill. -/
theorem C5_coverage_discount_sum_witness :
    Bill.calculate_coverage_discount scenarioBill =
      (scenarioAppointment.treatments.map
        (coverageContribution scenarioPolicy.coverages)).sum :=
  C5_coverage_discount_sum scenarioBill scenarioPolicy scenarioAppointment rfl rfl

/-- Claim C1 — counterexample: at the spec's own scenario (Unpaid bill,
subtotal 1,150,000, unused X-ray coverage worth 150,000, discount
150,000), `pay()` flips the status to Paid but leaves `total_amount_due`
at 1,150,000, not `subtotal − discount = 1,000,000`: `pay` never writes
`total_amount_due`. -/
theorem C1_counterexample_pay_total_amount_due :
    Bill.calculate_coverage_discount scenarioBill = 150000 ∧
    (Bill.pay 0 scenarioBill).status = BillStatus.paid ∧
    (Bill.pay 0 scenarioBill).subtotal = 1150000 ∧
    (Bill.pay 0 scenarioBill).total_amount_due = 1150000 ∧
    ((1150000 : Int) ≠ 1150000 - 150000) := by
  decide

/-- Claim C1 (amended) — `pay` never changes `total_amount_due`; the Paid
total equals subtotal minus the payment-time discount only when
`apply_policy_coverage` ran while the bill was Unpaid.  In the spec
scenario, `apply_policy_coverage` followed by `pay` yields
`total_amount_due = 1,000,000`, exactly one BillCoveredTreatment row for
X-ray, and the matching PolicyCoverage used; and after payment the bill
(hence `total_amount_due`) is never changed by `pay`, `update_status` or
`apply_policy_coverage`. -/
theorem C1_amended_pay_after_apply_policy_coverage :
    ((Bill.pay 0 (Bill.apply_policy_coverage scenarioBill)).total_amount_due = 1000000 ∧
     (Bill.pay 0 (Bill.apply_policy_coverage scenarioBill)).subtotal = 1150000 ∧
     (Bill.pay 0 (Bill.apply_policy_coverage scenarioBill)).covered_treatments =
       [{ treatment_name := "X-ray", treatment_price := 150000,
          coverage_amount := 150000 }] ∧
     (Bill.pay 0 (Bill.apply_policy_coverage scenarioBill)).policy =
       some { patient := 0, status := 2, expiry_date := 1000,
              total_coverage := 150000, total_covered := 150000,
              coverages := [{ coverage := ⟨"X-ray", 150000⟩, used := true }] }) ∧
    (∀ (today : Int) (b : Bill),
      (Bill.pay today b).total_amount_due = b.total_amount_due) ∧
    (∀ (today : Int) (b : Bill), b.status = BillStatus.paid →
      Bill.pay today b = b ∧ Bill.update_status b = b ∧
      Bill.apply_policy_coverage b = b) := by
  refine ⟨by decide, pay_total_amount_due, ?_⟩
  intro today b h
  exact ⟨pay_of_not_unpaid today b (by rw [h]; decide),
         update_status_of_not_tip b (by rw [h]; decide),
         apply_policy_coverage_of_not_unpaid b (by rw [h]; decide)⟩

/-- Witness for C1 (amended): a Paid bill is untouched by a further
`pay`. -/
theorem C1_amended_witness :
    Bill.pay 0 paidScenarioBill = paidScenarioBill :=
  (C1_amended_pay_after_apply_policy_coverage.2.2 0 paidScenarioBill (by decide)).1

/-- Claim C9 — counterexample: at the spec's own scenario (existing
class-3 patient, no policies, company total coverage 30,000,000) the
request does not fail with the claimed validation error: the limit block
evaluates `models.Sum('total_coverage')` with `models` unbound in
insurance/serializers.py and crashes with `NameError` before any
comparison, which is not the limit validation error. -/
theorem C9_counterexample_nameerror :
    validateCreatePolicy true 3 [] 0 30000000 =
      Except.error "NameError: name 'models' is not defined" ∧
    ("NameError: name 'models' is not defined" ≠
      "Company total coverage exceeds patient available limit.") :=
  ⟨rfl, by decide⟩

/-- Claim C9 (amended) — for a request naming an existing patient, once
the duplicate-company check passes, the limit check always raises
`NameError` (`models` is never imported by insurance/serializers.py): the
request fails — and creates nothing — but with an uncaught `NameError`
instead of the claimed validation error, regardless of the patient's
class, existing policies, or the company's total coverage; the intended
comparison (class limit minus the `total_coverage` of the patient's
status-Created/PartiallyClaimed/FullyClaimed policies) is never
performed.  For an inline-created patient both checks are skipped and
validation passes. -/
theorem C9_amended_limit_check_nameerror :
    (∀ (pclass : Int) (policies : List PolicyRef) (companyId : Nat)
       (companyTotal : Int),
      (policies.any (fun r =>
        r.company == companyId &&
          (r.status == 0 || r.status == 1 || r.status == 2))) = false →
      validateCreatePolicy true pclass policies companyId companyTotal =
        Except.error "NameError: name 'models' is not defined") ∧
    (∀ (pclass : Int) (policies : List PolicyRef) (companyId : Nat)
       (companyTotal : Int),
      validateCreatePolicy false pclass policies companyId companyTotal =
        Except.ok ()) := by
  constructor
  · intro pclass policies cid ctotal hdup
    have hnd : ¬((policies.any fun r =>
        r.company == cid && (r.status == 0 || r.status == 1 || r.status == 2))
          = true) := by
      rw [hdup]
      decide
    have hnm : ¬(insuranceSerializersTopLevelNames.contains "models" = true) := by
      decide
    unfold validateCreatePolicy
    rw [if_pos rfl, if_neg hnd, if_neg hnm]
  · intro pclass policies cid ctotal
    rfl

/-- Witness for C9 (amended) at the spec scenario: class-3 patient with
no policies, company total coverage 30,000,000 — the request dies with
the NameError, not the limit error. -/
theorem C9_amended_witness :
    validateCreatePolicy true 3 [] 5 30000000 =
      Except.error "NameError: name 'models' is not defined" :=
  C9_amended_limit_check_nameerror.1 3 [] 5 30000000 rfl

lemma processPrescription_foldl :
    ∀ (lines : List MedicineLine) (acc : List MedicineLine) (flag : Bool),
      lines.foldl (fun (st : List MedicineLine × Bool) l =>
        (st.1 ++ [(processLine l).1], st.2 && (processLine l).2)) (acc, flag)
      = (acc ++ lines.map (fun l => (processLine l).1),
         flag && lines.all (fun l => (processLine l).2)) := by
  intro lines
  induction lines with
  | nil => intro acc flag; simp
  | cons l ls ih =>
      intro acc flag
      rw [List.foldl_cons, ih]
      simp [List.append_assoc, Bool.and_assoc]

lemma processPrescription_eq (lines : List MedicineLine) :
    processPrescription lines =
      (lines.map (fun l => (processLine l).1),
       if lines.all (fun l => (processLine l).2) then 2 else 1) := by
  unfold processPrescription
  rw [processPrescription_foldl]
  simp

lemma processLine_min (l : MedicineLine) :
    (processLine l).1.quantity = l.quantity ∧
    (processLine l).1.fulfilled_quantity =
      l.fulfilled_quantity + min l.remaining_quantity l.stock ∧
    (processLine l).1.stock = l.stock - min l.remaining_quantity l.stock := by
  unfold processLine
  split
  · rename_i h
    refine ⟨rfl, ?_, ?_⟩ <;> simp [min_eq_left h]
  · rename_i h
    have hle : l.stock ≤ l.remaining_quantity := le_of_not_le h
    refine ⟨rfl, ?_, ?_⟩ <;> simp [min_eq_right hle]

lemma processLine_done_iff (l : MedicineLine) :
    (processLine l).2 = true ↔ (processLine l).1.remaining_quantity = 0 := by
  unfold processLine MedicineLine.remaining_quantity
  split <;> rename_i h <;> simp <;> omega

/-- Claim C8 — prescription processing fulfills every medicine line by
`min(remaining_quantity, stock)` while decrementing the stock by exactly
the amount fulfilled, and the resulting status is Done (2) precisely when
every line ends fully fulfilled, WaitingForStock (1) otherwise.  The
spec's scenario: 10 requested with stock 6 fulfills 6 and empties the
stock, leaving WaitingForStock; after a restock of 10 a reprocessing
fulfills the remaining 4 and the status becomes Done. -/
theorem C8_process_prescription_fulfillment :
    (∀ l : MedicineLine,
      (processLine l).1.quantity = l.quantity ∧
      (processLine l).1.fulfilled_quantity =
        l.fulfilled_quantity + min l.remaining_quantity l.stock ∧
      (processLine l).1.stock = l.stock - min l.remaining_quantity l.stock) ∧
    (∀ lines : List MedicineLine,
      (processPrescription lines).1 = lines.map (fun l => (processLine l).1) ∧
      ((processPrescription lines).2 = 2 ↔
        ∀ l ∈ (processPrescription lines).1, l.remaining_quantity = 0) ∧
      ((processPrescription lines).2 = 2 ∨ (processPrescription lines).2 = 1)) ∧
    (processPrescription [{ quantity := 10, fulfilled_quantity := 0, stock := 6 }] =
       ([{ quantity := 10, fulfilled_quantity := 6, stock := 0 }], 1) ∧
     restockLine { quantity := 10, fulfilled_quantity := 6, stock := 0 } 10 =
       { quantity := 10, fulfilled_quantity := 6, stock := 10 } ∧
     processPrescription [{ quantity := 10, fulfilled_quantity := 6, stock := 10 }] =
       ([{ quantity := 10, fulfilled_quantity := 10, stock := 6 }], 2)) := by
  refine ⟨processLine_min, ?_, by decide⟩
  intro lines
  rw [processPrescription_eq]
  refine ⟨rfl, ?_, ?_⟩
  · by_cases hall : (lines.all fun l => (processLine l).2) = true
    · rw [if_pos hall]
      simp only [eq_self_iff_true, true_iff]
      intro l' hl'
      obtain ⟨l, hl, rfl⟩ := List.mem_map.mp hl'
      exact (processLine_done_iff l).mp (List.all_eq_true.mp hall l hl)
    · rw [if_neg hall]
      dsimp only
      constructor
      · intro hc; exact absurd hc (by decide)
      · intro hc
        exfalso
        rw [List.all_eq_true] at hall
        push_neg at hall
        obtain ⟨l, hl, hnot⟩ := hall
        have hz : (processLine l).1.remaining_quantity = 0 :=
          hc _ (List.mem_map.mpr ⟨l, hl, rfl⟩)
        exact hnot ((processLine_done_iff l).mpr hz)
  · by_cases hall : (lines.all fun l => (processLine l).2) = true
    · left; rw [if_pos hall]
    · right; rw [if_neg hall]

lemma update_status_policy (b : Bill) :
    (Bill.update_status b).policy = b.policy := by
  unfold Bill.update_status
  cases b.appointment <;> cases b.prescription <;> cases b.reservation <;>
    (dsimp only; split <;> first | rfl | (split <;> rfl))

lemma update_status_appointment (b : Bill) :
    (Bill.update_status b).appointment = b.appointment := by
  unfold Bill.update_status
  cases hA : b.appointment <;> cases b.prescription <;> cases b.reservation <;>
    (dsimp only; split <;> first | (split <;> simp [hA]) | simp [hA])

lemma updateLoop_error (b : Bill) (lines : List PolicyCoverage) :
    ∀ ts : List Treatment,
      (∃ t ∈ ts, (findFirstUnused lines t.name).isSome = true) →
      updateLoop b lines ts =
        Except.error ("AttributeError: coverage_amount", b) := by
  intro ts
  induction ts with
  | nil =>
      rintro ⟨t, ht, _⟩
      exact absurd ht (List.not_mem_nil t)
  | cons t0 ts ih =>
      rintro ⟨t, ht, hsome⟩
      simp only [updateLoop]
      cases hf : findFirstUnused lines t0.name with
      | some pc =>
          have hnc : ¬(policyCoverageAttrNames.contains "coverage_amount" = true) := by
            decide
          dsimp only
          rw [if_neg hnc]
      | none =>
          rcases List.mem_cons.mp ht with rfl | hmem
          · rw [hf] at hsome
            exact absurd hsome (by decide)
          · exact ih ⟨t, hmem, hsome⟩

/-- Claim C10 — attaching a policy that passes `validate_policy` to a
bill with an appointment makes the update routine raise: it saves the
policy onto the bill, runs `update_status`, deletes the existing
`BillCoveredTreatment` rows, and then evaluates the non-existent
attribute `coverage_amount` on the first matching `PolicyCoverage`, so
the update ends in an AttributeError whose surviving state has the new
policy attached and the covered-treatment rows already deleted. -/
theorem C10_attach_policy_raises_after_partial_mutation :
    ∀ (b : Bill) (p : Policy) (a : Appointment),
      b.appointment = some a →
      validate_policy b p = true →
      ∃ bp, updateBillWithPolicy b p =
          Except.error ("AttributeError: coverage_amount", bp) ∧
        bp.policy = some p ∧ bp.covered_treatments = ([] : List BillCoveredTreatment) ∧
        bp.appointment = some a := by
  intro b p a ha hv
  have hpol2 : (Bill.update_status { b with policy := some p }).policy = some p := by
    rw [update_status_policy]
  have happ2 :
      (Bill.update_status { b with policy := some p }).appointment = some a := by
    rw [update_status_appointment]
    exact ha
  have hmatch : ∃ t ∈ a.treatments,
      (findFirstUnused p.coverages t.name).isSome = true := by
    unfold validate_policy at hv
    rw [ha] at hv
    simp only [Bool.and_eq_true] at hv
    simpa using List.any_eq_true.mp hv.2
  refine ⟨{ Bill.update_status { b with policy := some p } with
            covered_treatments := [] }, ?_, hpol2, rfl, happ2⟩
  unfold updateBillWithPolicy
  dsimp only
  rw [hpol2, happ2]
  exact updateLoop_error _ p.coverages a.treatments hmatch

/-- Witness for C10: attaching the scenario policy to `attachBill`
(holding a stale covered-treatment row) errors out with the policy saved
and the rows deleted. -/
theorem C10_attach_policy_raises_witness :
    ∃ bp, updateBillWithPolicy attachBill scenarioPolicy =
        Except.error ("AttributeError: coverage_amount", bp) ∧
      bp.policy = some scenarioPolicy ∧
      bp.covered_treatments = ([] : List BillCoveredTreatment) ∧
      bp.appointment = some scenarioAppointment :=
  C10_attach_policy_raises_after_partial_mutation attachBill scenarioPolicy
    scenarioAppointment rfl (by decide)

lemma findFirstUnused_cons (pc : PolicyCoverage) (rest : List PolicyCoverage)
    (n : String) :
    findFirstUnused (pc :: rest) n =
      if (pc.coverage.name == n && pc.used == false) = true then some pc
      else findFirstUnused rest n := by
  by_cases hc : (pc.coverage.name == n && pc.used == false) = true
  · rw [if_pos hc]
    exact List.find?_cons_of_pos _ hc
  · rw [if_neg hc]
    exact List.find?_cons_of_neg _ hc

lemma findFirstUnused_mark_ne (lines : List PolicyCoverage) (n m : String)
    (h : m ≠ n) :
    findFirstUnused (markFirstUnused lines n) m = findFirstUnused lines m := by
  induction lines with
  | nil => rfl
  | cons pc rest ih =>
      unfold markFirstUnused
      by_cases hpc : (pc.coverage.name == n && pc.used == false) = true
      · rw [if_pos hpc]
        have hname : pc.coverage.name = n := by
          simp only [Bool.and_eq_true, beq_iff_eq] at hpc
          exact hpc.1
        rw [findFirstUnused_cons, findFirstUnused_cons]
        rw [if_neg (by simp), if_neg ?hside]
        case hside =>
          simp only [Bool.and_eq_true, beq_iff_eq, hname]
          rintro ⟨h1, _⟩
          exact h h1.symm
      · rw [if_neg hpc]
        rw [findFirstUnused_cons, findFirstUnused_cons]
        by_cases hm : (pc.coverage.name == m && pc.used == false) = true
        · rw [if_pos hm, if_pos hm]
        · rw [if_neg hm, if_neg hm]
          exact ih

lemma sumUnused_mark (lines : List PolicyCoverage) (n : String)
    (pc : PolicyCoverage) (h : findFirstUnused lines n = some pc) :
    sumUnused (markFirstUnused lines n) + pc.coverage.coverage_amount =
      sumUnused lines := by
  induction lines with
  | nil => cases h
  | cons pc0 rest ih =>
      unfold markFirstUnused
      by_cases hp : (pc0.coverage.name == n && pc0.used == false) = true
      · rw [if_pos hp]
        have hpc : pc = pc0 := by
          rw [findFirstUnused_cons, if_pos hp] at h
          exact (Option.some_inj.mp h).symm
        have hused : pc0.used = false := by
          simp only [Bool.and_eq_true, beq_iff_eq] at hp
          exact hp.2
        subst hpc
        simp [sumUnused, hused] <;> omega
      · rw [if_neg hp]
        have h' : findFirstUnused rest n = some pc := by
          rw [findFirstUnused_cons, if_neg hp] at h
          exact h
        have hih := ih h'
        unfold sumUnused
        omega

lemma sumUnused_nonneg (lines : List PolicyCoverage)
    (h : ∀ pc ∈ lines, 0 ≤ pc.coverage.coverage_amount) :
    0 ≤ sumUnused lines := by
  induction lines with
  | nil => simp [sumUnused]
  | cons pc rest ih =>
      have h0 := h pc (List.mem_cons_self pc rest)
      have hr := ih (fun x hx => h x (List.mem_cons_of_mem pc hx))
      unfold sumUnused
      split <;> omega

lemma mark_amounts_nonneg (lines : List PolicyCoverage) (n : String)
    (h : ∀ pc ∈ lines, 0 ≤ pc.coverage.coverage_amount) :
    ∀ pc ∈ markFirstUnused lines n, 0 ≤ pc.coverage.coverage_amount := by
  induction lines with
  | nil =>
      intro pc hpc
      exact absurd hpc (List.not_mem_nil pc)
  | cons pc0 rest ih =>
      unfold markFirstUnused
      split
      · intro pc hpc
        rcases List.mem_cons.mp hpc with rfl | hm
        · exact h pc0 (List.mem_cons_self pc0 rest)
        · exact h pc (List.mem_cons_of_mem pc0 hm)
      · intro pc hpc
        rcases List.mem_cons.mp hpc with rfl | hm
        · exact h pc (List.mem_cons_self pc rest)
        · exact ih (fun x hx => h x (List.mem_cons_of_mem pc0 hx)) pc hm

lemma coverageContribution_mark_ne (lines : List PolicyCoverage) (n : String)
    (t : Treatment) (h : t.name ≠ n) :
    coverageContribution (markFirstUnused lines n) t =
      coverageContribution lines t := by
  unfold coverageContribution
  rw [findFirstUnused_mark_ne lines n t.name h]

lemma coverageContribution_nonneg (lines : List PolicyCoverage) (t : Treatment)
    (hamt : ∀ pc ∈ lines, 0 ≤ pc.coverage.coverage_amount)
    (hp : 0 ≤ t.price) :
    0 ≤ coverageContribution lines t := by
  unfold coverageContribution
  cases hf : findFirstUnused lines t.name with
  | none => exact le_refl 0
  | some pc =>
      have hmem : pc ∈ lines := by
        unfold findFirstUnused at hf
        exact List.mem_of_find?_eq_some hf
      exact le_min hp (hamt pc hmem)

lemma payLoop_discount_bound :
    ∀ (ts : List Treatment) (lines : List PolicyCoverage)
      (rows : List BillCoveredTreatment),
      ts.Pairwise (fun t1 t2 => t1.name ≠ t2.name) →
      (∀ pc ∈ lines, 0 ≤ pc.coverage.coverage_amount) →
      (ts.map (coverageContribution lines)).sum +
        sumUnused (payLoop ts lines rows).1 ≤ sumUnused lines := by
  intro ts
  induction ts with
  | nil =>
      intro lines rows _ _
      simp [payLoop]
  | cons t ts ih =>
      intro lines rows hpw hamt
      have hhead : ∀ t' ∈ ts, t.name ≠ t'.name := (List.pairwise_cons.mp hpw).1
      have htail := (List.pairwise_cons.mp hpw).2
      cases hf : findFirstUnused lines t.name with
      | none =>
          have hpl : payLoop (t :: ts) lines rows = payLoop ts lines rows := by
            simp only [payLoop]
            rw [hf]
          have hc : coverageContribution lines t = 0 := by
            unfold coverageContribution
            rw [hf]
          rw [List.map_cons, List.sum_cons, hc, hpl]
          have hih := ih lines rows htail hamt
          omega
      | some pc =>
          have hpl : payLoop (t :: ts) lines rows =
              payLoop ts (markFirstUnused lines t.name)
                (rows ++ [{ treatment_name := t.name, treatment_price := t.price,
                            coverage_amount := min t.price pc.coverage.coverage_amount }]) := by
            simp only [payLoop]
            rw [hf]
          have hc : coverageContribution lines t =
              min t.price pc.coverage.coverage_amount := by
            unfold coverageContribution
            rw [hf]
          have hmin : min t.price pc.coverage.coverage_amount ≤
              pc.coverage.coverage_amount := min_le_right _ _
          have hmark := sumUnused_mark lines t.name pc hf
          have hamt' := mark_amounts_nonneg lines t.name hamt
          have hstab : (ts.map (coverageContribution (markFirstUnused lines t.name))).sum
              = (ts.map (coverageContribution lines)).sum := by
            have hmc : ts.map (coverageContribution (markFirstUnused lines t.name))
                = ts.map (coverageContribution lines) :=
              List.map_congr_left (fun t' ht' =>
                coverageContribution_mark_ne lines t.name t' (hhead t' ht').symm)
            rw [hmc]
          have hih := ih (markFirstUnused lines t.name)
            (rows ++ [{ treatment_name := t.name, treatment_price := t.price,
                        coverage_amount := min t.price pc.coverage.coverage_amount }])
            htail hamt'
          rw [List.map_cons, List.sum_cons, hc, hpl]
          omega

lemma payLoop_amounts_nonneg :
    ∀ (ts : List Treatment) (lines : List PolicyCoverage)
      (rows : List BillCoveredTreatment),
      (∀ pc ∈ lines, 0 ≤ pc.coverage.coverage_amount) →
      ∀ pc ∈ (payLoop ts lines rows).1, 0 ≤ pc.coverage.coverage_amount := by
  intro ts
  induction ts with
  | nil =>
      intro lines rows h
      simpa [payLoop] using h
  | cons t ts ih =>
      intro lines rows h
      cases hf : findFirstUnused lines t.name with
      | none =>
          have hpl : payLoop (t :: ts) lines rows = payLoop ts lines rows := by
            simp only [payLoop]
            rw [hf]
          rw [hpl]
          exact ih lines rows h
      | some pc =>
          have hpl : payLoop (t :: ts) lines rows =
              payLoop ts (markFirstUnused lines t.name)
                (rows ++ [{ treatment_name := t.name, treatment_price := t.price,
                            coverage_amount := min t.price pc.coverage.coverage_amount }]) := by
            simp only [payLoop]
            rw [hf]
          rw [hpl]
          exact ih _ _ (mark_amounts_nonneg lines t.name h)

lemma policy_update_status_fields (today : Int) (p : Policy) :
    (Policy.update_status today p).total_covered = p.total_covered ∧
    (Policy.update_status today p).total_coverage = p.total_coverage ∧
    (Policy.update_status today p).coverages = p.coverages := by
  unfold Policy.update_status
  split_ifs <;> exact ⟨rfl, rfl, rfl⟩

lemma pay_policy_spec (today : Int) (b : Bill) (p : Policy) (a : Appointment)
    (hs : b.status = BillStatus.unpaid) (hp : b.policy = some p)
    (ha : b.appointment = some a) :
    ∃ p', (Bill.pay today b).policy = some p' ∧
      p'.total_covered = p.total_covered + b.calculate_coverage_discount ∧
      p'.total_coverage = p.total_coverage ∧
      p'.coverages = (payLoop a.treatments p.coverages []).1 := by
  obtain ⟨pat, app, pres, res, pol, f1, f2, f3, sub, tad, st, ct⟩ := b
  dsimp only at hs hp ha
  subst hs
  subst hp
  subst ha
  refine ⟨_, rfl, ?_, ?_, ?_⟩
  · dsimp only [Bill.pay]
    rw [(policy_update_status_fields _ _).1]
    split <;> rfl
  · dsimp only [Bill.pay]
    rw [(policy_update_status_fields _ _).2.1]
    split <;> rfl
  · dsimp only [Bill.pay]
    rw [(policy_update_status_fields _ _).2.2]
    split <;> rfl

/-- Claim C3 — counterexample: an appointment with two distinct treatment
lines both named X-ray (price 150,000 each) against a policy holding one
unused X-ray coverage line of 150,000 (`total_coverage` 150,000,
`total_covered` 0).  `calculate_coverage_discount` does not flip `used`
flags while summing, so both lines match the same coverage line and
`pay()` adds 300,000 to `total_covered`, violating
`total_covered ≤ total_coverage`. -/
theorem C3_counterexample_duplicate_names :
    (Bill.pay 0 dupXrayBill).policy =
      some { patient := 0, status := 2, expiry_date := 1000,
             total_coverage := 150000, total_covered := 300000,
             coverages := [{ coverage := ⟨"X-ray", 150000⟩, used := true }] } ∧
    ¬((300000 : Int) ≤ 150000) := by
  exact ⟨by decide, by decide⟩

/-- Claim C3 (amended) — `Bill.pay` preserves
`0 ≤ total_covered ≤ total_coverage` provided no two treatment lines on
the bill's appointment share a name; more precisely, under nonnegative
prices and coverage amounts it preserves the inductive invariant
`0 ≤ total_covered` and
`total_covered + (sum of unused coverage amounts) ≤ total_coverage`,
which yields the bound.  With two same-name treatment lines matching the
same unused coverage line, `pay` double-counts that line and
`total_covered` can exceed `total_coverage` (see the counterexample). -/
theorem C3_amended_invariant_distinct_names :
    ∀ (today : Int) (b : Bill) (p : Policy) (a : Appointment),
      b.status = BillStatus.unpaid →
      b.policy = some p →
      b.appointment = some a →
      a.treatments.Pairwise (fun t1 t2 => t1.name ≠ t2.name) →
      (∀ t ∈ a.treatments, 0 ≤ t.price) →
      (∀ pc ∈ p.coverages, 0 ≤ pc.coverage.coverage_amount) →
      0 ≤ p.total_covered →
      p.total_covered + sumUnused p.coverages ≤ p.total_coverage →
      ∃ p', (Bill.pay today b).policy = some p' ∧
        0 ≤ p'.total_covered ∧
        p'.total_covered ≤ p'.total_coverage ∧
        p'.total_covered + sumUnused p'.coverages ≤ p'.total_coverage ∧
        (∀ pc ∈ p'.coverages, 0 ≤ pc.coverage.coverage_amount) := by
  intro today b p a hs hp ha hpw hpr hamt hc0 hinv
  obtain ⟨p', hpol, hcov, hcoverage, hcvs⟩ := pay_policy_spec today b p a hs hp ha
  have hd : b.calculate_coverage_discount =
      (a.treatments.map (coverageContribution p.coverages)).sum :=
    calc_discount_mapsum b p a hp ha
  have hdnn : 0 ≤ b.calculate_coverage_discount := by
    rw [hd]
    apply List.sum_nonneg
    intro x hx
    obtain ⟨t, ht, rfl⟩ := List.mem_map.mp hx
    exact coverageContribution_nonneg p.coverages t hamt (hpr t ht)
  have hbound := payLoop_discount_bound a.treatments p.coverages [] hpw hamt
  have hnn' : ∀ pc ∈ (payLoop a.treatments p.coverages []).1,
      0 ≤ pc.coverage.coverage_amount :=
    payLoop_amounts_nonneg a.treatments p.coverages [] hamt
  have hsn : 0 ≤ sumUnused (payLoop a.treatments p.coverages []).1 :=
    sumUnused_nonneg _ hnn'
  refine ⟨p', hpol, ?_, ?_, ?_, ?_⟩
  · rw [hcov]
    omega
  · rw [hcov, hcoverage]
    omega
  · rw [hcov, hcoverage, hcvs]
    omega
  · rw [hcvs]
    exact hnn'

/-- Witness for C3 (amended) at the spec scenario bill, whose two
treatment lines carry distinct names. -/
theorem C3_amended_invariant_witness :
    ∃ p', (Bill.pay 0 scenarioBill).policy = some p' ∧
      0 ≤ p'.total_covered ∧
      p'.total_covered ≤ p'.total_coverage ∧
      p'.total_covered + sumUnused p'.coverages ≤ p'.total_coverage ∧
      (∀ pc ∈ p'.coverages, 0 ≤ pc.coverage.coverage_amount) :=
  C3_amended_invariant_distinct_names 0 scenarioBill scenarioPolicy
    scenarioAppointment rfl rfl rfl (by decide) (by decide) (by decide)
    (by decide) (by decide)
